import Mathlib

/-!
Shallow embedding of `src/python/mt5_connector.py` (class `MT5Connector`).

Python floats are modelled as rationals (`ℚ`), Python's `round` (banker's
rounding) as `pyRound`, and the MetaTrader venue as explicit environment
records supplying the results of the venue calls (`symbol_select`,
`symbol_info`, `symbol_info_tick`, `order_send`, `last_error`,
`positions_get`, `copy_rates_from_pos`).  Each fallible operation returns an
`Except` whose error constructors correspond one-to-one to the `return False,
...` paths of the source.  Order submissions are additionally recorded in a
trace (the list of requests handed to `order_send`, in order) so that
properties about "what was submitted to the venue" can be stated.
-/

set_option autoImplicit false

/-- Python's built-in `round` on a real value: round half to even. -/
def pyRound (x : ℚ) : ℤ :=
  let n := ⌊x⌋
  let r := x - (n : ℚ)
  if r < 1/2 then n
  else if 1/2 < r then n + 1
  else if n % 2 = 0 then n else n + 1

/-- Python's two-argument `round(x, digits)`. -/
def pyRoundD (x : ℚ) (digits : ℕ) : ℚ :=
  (pyRound (x * (10 : ℚ) ^ digits) : ℚ) / (10 : ℚ) ^ digits

/-- Fields of `mt5.symbol_info(symbol)` used by the connector
(`get_symbol_info`, lines 114-126). -/
structure SymbolInfo where
  point : ℚ
  digits : ℕ
  spread : ℚ
  trade_mode : ℕ
  volume_min : ℚ
  volume_max : ℚ
  volume_step : ℚ
  stops_level : ℚ
  filling_mode : ℕ
deriving DecidableEq

/-- `mt5.symbol_info_tick(symbol)`. -/
structure Tick where
  bid : ℚ
  ask : ℚ
  time : ℤ
deriving DecidableEq

/-- The MT5 order-filling constants appended to `supported_fillings`
(lines 297-302 / 406-411). -/
inductive Filling
  | FOK
  | IOC
  | RETURN
deriving DecidableEq, Inhabited

/-- Lines 295-302 / 404-411: decode the instrument's filling-capability
bitmask in the fixed order FOK (bit 1), IOC (bit 2), RETURN (bit 4). -/
def supported_fillings (filling_mode : ℕ) : List Filling :=
  (if filling_mode &&& 1 ≠ 0 then [Filling.FOK] else []) ++
  (if filling_mode &&& 2 ≠ 0 then [Filling.IOC] else []) ++
  (if filling_mode &&& 4 ≠ 0 then [Filling.RETURN] else [])

/-- Line 292 / 399: clamp to `[volume_min, volume_max]` after quantizing to
`volume_step` by round-to-nearest-step. -/
def normalize_volume (info : SymbolInfo) (volume : ℚ) : ℚ :=
  max info.volume_min
    (min info.volume_max ((pyRound (volume / info.volume_step) : ℚ) * info.volume_step))

/-- The request dictionary handed to `mt5.order_send` (lines 312-323 and
421-432).  `otype` is the MT5 order-type constant (BUY = 0, SELL = 1);
`sl`/`tp` are `none` when the corresponding key is absent from the dict;
`position` is set only by `close_trade`. -/
structure TradeRequest where
  symbol : String
  volume : ℚ
  otype : ℕ
  price : ℚ
  deviation : ℕ
  magic : ℤ
  comment : String
  type_filling : Filling
  sl : Option ℚ := none
  tp : Option ℚ := none
  position : Option ℕ := none
deriving DecidableEq

/-- Fields of a non-`None` `mt5.order_send` result used by the connector. -/
structure SendResult where
  retcode : ℕ
  order : ℕ
  deal : ℕ
  volume : ℚ
  price : ℚ
deriving DecidableEq

/-- The `error_codes` dictionaries of `place_trade` (lines 360-369) and
`close_trade` (lines 453-462); the two dictionaries are identical. -/
def error_codes (retcode : ℕ) : Option String :=
  if retcode = 10018 then some "Market closed"
  else if retcode = 10019 then some "Insufficient funds"
  else if retcode = 10020 then some "Prices changed"
  else if retcode = 10021 then some "Invalid request (check volume, symbol, or market status)"
  else if retcode = 10022 then some "Invalid SL/TP"
  else if retcode = 10017 then some "Invalid parameters"
  else if retcode = 10027 then some "AutoTrading disabled"
  else if retcode = 10030 then some "Invalid order filling type"
  else none

/-- Line 370 / 463: catalog lookup with generic fallback. -/
def error_message (retcode : ℕ) : String :=
  (error_codes retcode).getD ("Error " ++ toString retcode)

/-- The `return False, ...` paths of `place_trade` (lines 263-374). -/
inductive PlaceErr
  | notConnected
  | symbolNotSelected (symbol : String)
  | symbolNotFound (symbol : String)
  | notTradable (symbol : String)
  | noPrice (symbol : String)
  | invalidOrderType (t : String)
  | noFillingMode (symbol : String)
  | orderFailedCode (code : ℤ) (msg : String)
  | orderFailedMsg (msg : String)
deriving DecidableEq

/-- The success payload of `place_trade` (lines 350-359). -/
structure PlaceOk where
  order : ℕ
  deal : ℕ
  volume : ℚ
  price : ℚ
  sl : ℚ
  tp : ℚ
  comment : String
  retcode : ℕ
deriving DecidableEq

/-- Venue responses seen by one `place_trade` call.  `send i req` is the
result of the `i`-th `mt5.order_send(request)` call (0 = initial submission,
1 = requote resubmission); `last_error1`/`last_error2` are the
`mt5.last_error()` tuples read after the first and second failed send. -/
structure PlaceEnv where
  selectOk : Bool
  info : Option SymbolInfo
  tick : Option Tick
  send : ℕ → TradeRequest → Option SendResult
  last_error1 : ℤ × String
  last_error2 : ℤ × String

/-- Lines 280-291: dispatch on the upper-cased order type, returning the MT5
order-type constant and the reference price (ask for BUY, bid for SELL). -/
def place_branch (ot : String) (tick : Tick) : Option (ℕ × ℚ) :=
  if ot = "BUY" then some (0, tick.ask)
  else if ot = "SELL" then some (1, tick.bid)
  else none

/-- A stop-loss price at distance `d` from the reference price (BUY
subtracts, SELL adds), rounded to the instrument digits (lines 283/288/327). -/
def sl_price (ot : String) (price d : ℚ) (digits : ℕ) : ℚ :=
  pyRoundD (if ot = "BUY" then price - d else price + d) digits

/-- A take-profit price at distance `d` (BUY adds, SELL subtracts), rounded
to the instrument digits (lines 284/289/332). -/
def tp_price (ot : String) (price d : ℚ) (digits : ℕ) : ℚ :=
  pyRoundD (if ot = "BUY" then price + d else price - d) digits

/-- Lines 283-284/288-289: the preliminary `sl` variable (0 when no positive
distance was supplied). -/
def sl_pre (ot : String) (sl_distance : Option ℚ) (price : ℚ) (digits : ℕ) : ℚ :=
  match sl_distance with
  | some d => if 0 < d then sl_price ot price d digits else 0
  | none => 0

/-- Lines 283-284/288-289: the preliminary `tp` variable. -/
def tp_pre (ot : String) (tp_distance : Option ℚ) (price : ℚ) (digits : ℕ) : ℚ :=
  match tp_distance with
  | some d => if 0 < d then tp_price ot price d digits else 0
  | none => 0

/-- Lines 324-328: the SL entry of the request dictionary together with the
final value of the `sl` variable.  `sl0` is the preliminary price computed in
the BUY/SELL branch; the key is written only when the caller supplied a
positive distance and `sl0` is non-zero, widening the distance to
`stop_level` when it is smaller. -/
def place_adjust_sl (ot : String) (sl_distance : Option ℚ) (sl0 stop_level price : ℚ)
    (digits : ℕ) : Option ℚ × ℚ :=
  match sl_distance with
  | none => (none, sl0)
  | some d =>
    if 0 < d ∧ sl0 ≠ 0 then
      if d < stop_level then
        let sl1 := sl_price ot price stop_level digits
        (some sl1, sl1)
      else (some sl0, sl0)
    else (none, sl0)

/-- Lines 329-333: same for the TP entry (signs mirrored). -/
def place_adjust_tp (ot : String) (tp_distance : Option ℚ) (tp0 stop_level price : ℚ)
    (digits : ℕ) : Option ℚ × ℚ :=
  match tp_distance with
  | none => (none, tp0)
  | some d =>
    if 0 < d ∧ tp0 ≠ 0 then
      if d < stop_level then
        let tp1 := tp_price ot price stop_level digits
        (some tp1, tp1)
      else (some tp0, tp0)
    else (none, tp0)

/-- Everything `place_trade` computes before the first `order_send`
(lines 265-333): validation, price/SL/TP computation, volume normalization,
filling-mode selection and construction of the request dictionary. -/
structure PlacePrep where
  info : SymbolInfo
  req : TradeRequest
  sl : ℚ
  tp : ℚ
deriving DecidableEq

/-- Lines 265-333 of `place_trade`. -/
def place_prepare (env : PlaceEnv) (connected : Bool) (symbol : String) (volume : ℚ)
    (order_type : String) (sl_distance tp_distance : Option ℚ)
    (comment : String) (magic : ℤ) : Except PlaceErr PlacePrep :=
  if connected = false then .error .notConnected
  else if env.selectOk = false then .error (.symbolNotSelected symbol)
  else
    match env.info with
    | none => .error (.symbolNotFound symbol)
    | some info =>
      if info.trade_mode = 0 then .error (.notTradable symbol)
      else
        match env.tick with
        | none => .error (.noPrice symbol)
        | some tick =>
          let stop_level := info.stops_level * info.point
          let ot := order_type.toUpper
          match place_branch ot tick with
          | none => .error (.invalidOrderType ot)
          | some pr =>
            let price := pr.2
            let sl0 := sl_pre ot sl_distance price info.digits
            let tp0 := tp_pre ot tp_distance price info.digits
            let vol := normalize_volume info volume
            match supported_fillings info.filling_mode with
            | [] => .error (.noFillingMode symbol)
            | f :: _ =>
              let slp := place_adjust_sl ot sl_distance sl0 stop_level price info.digits
              let tpp := place_adjust_tp ot tp_distance tp0 stop_level price info.digits
              .ok { info := info
                    req := { symbol := symbol, volume := vol, otype := pr.1, price := price,
                             deviation := 20, magic := magic, comment := comment,
                             type_filling := f, sl := slp.1, tp := tpp.1, position := none }
                    sl := slp.2
                    tp := tpp.2 }

/-- Lines 349-371: interpret a non-`None` `order_send` result. -/
def place_finish (p : PlacePrep) (comment : String) (r : SendResult) :
    Except PlaceErr PlaceOk :=
  if r.retcode = 10009 then
    .ok { order := r.order, deal := r.deal, volume := r.volume, price := r.price,
          sl := p.sl, tp := p.tp, comment := comment, retcode := r.retcode }
  else .error (.orderFailedMsg (error_message r.retcode))

/-- Lines 334-371: submit the prepared request, with the single requote
resubmission at deviation 50 when the first send returns no result and
`last_error` reports code 10013.  Returns the submission trace alongside the
outcome. -/
def place_submit (env : PlaceEnv) (comment : String) (p : PlacePrep) :
    List TradeRequest × Except PlaceErr PlaceOk :=
  match env.send 0 p.req with
  | some r => ([p.req], place_finish p comment r)
  | none =>
    if env.last_error1.1 = 10013 then
      let req2 := { p.req with deviation := 50 }
      match env.send 1 req2 with
      | some r => ([p.req, req2], place_finish p comment r)
      | none => ([p.req, req2], .error (.orderFailedCode env.last_error2.1 env.last_error2.2))
    else ([p.req], .error (.orderFailedCode env.last_error1.1 env.last_error1.2))

/-- `MT5Connector.place_trade` (lines 263-374): first component is the list
of requests handed to `mt5.order_send`, in order. -/
def place_trade (env : PlaceEnv) (connected : Bool) (symbol : String) (volume : ℚ)
    (order_type : String) (sl_distance tp_distance : Option ℚ)
    (comment : String) (magic : ℤ) : List TradeRequest × Except PlaceErr PlaceOk :=
  match place_prepare env connected symbol volume order_type sl_distance tp_distance
      comment magic with
  | .error e => ([], .error e)
  | .ok p => place_submit env comment p

/-- Fields of the `mt5.positions_get(ticket=...)` snapshot used by
`close_trade` (lines 384-391, 420, 428, 445).  `ptype` is the MT5 position
type (BUY = 0, SELL = 1). -/
structure PositionState where
  symbol : String
  ptype : ℕ
  volume : ℚ
  magic : ℤ
  profit : ℚ
deriving DecidableEq

/-- The `return False, ...` paths of `close_trade` (lines 376-468). -/
inductive CloseErr
  | notConnected
  | positionNotFound (ticket : ℕ)
  | symbolNotSelected (symbol : String)
  | symbolNotFound (symbol : String)
  | notTradable (symbol : String)
  | volumeBelowMin (v vmin : ℚ)
  | volumeAboveMax (v vmax : ℚ)
  | noFillingMode (symbol : String)
  | noPrice (symbol : String)
  | closeFailedCode (code : ℤ) (msg : String)
  | closeFailedMsg (msg : String)
  | closeExhausted (attempts : ℕ)
deriving DecidableEq

/-- The success payload of `close_trade` (lines 440-448). -/
structure CloseOk where
  deal : ℕ
  retcode : ℕ
  price : ℚ
  volume : ℚ
  profit : ℚ
  symbol : String
  position_type : String
deriving DecidableEq

/-- Venue responses seen by one `close_trade` call.  `ticks i` and
`send i req` are the results of `mt5.symbol_info_tick` and `mt5.order_send`
during attempt `i`; `last_error` is the tuple read when a send returns no
result. -/
structure CloseEnv where
  position : Option PositionState
  selectOk : Bool
  info : Option SymbolInfo
  ticks : ℕ → Option Tick
  send : ℕ → TradeRequest → Option SendResult
  last_error : ℤ × String

/-- Line 388-391: `volume` defaults to the position volume and is otherwise
capped at it. -/
def cap_volume (volume : Option ℚ) (pos_volume : ℚ) : ℚ :=
  match volume with
  | none => pos_volume
  | some v => min v pos_volume

/-- Everything `close_trade` computes before the retry loop
(lines 378-415). -/
structure ClosePrep where
  pos : PositionState
  symbol : String
  info : SymbolInfo
  volume : ℚ
  caps : List Filling
  filling : Filling
deriving DecidableEq

/-- Lines 378-415 of `close_trade`. -/
def close_prepare (env : CloseEnv) (connected : Bool) (ticket : ℕ)
    (volume : Option ℚ) (symbol : Option String) : Except CloseErr ClosePrep :=
  if connected = false then .error .notConnected
  else
    match env.position with
    | none => .error (.positionNotFound ticket)
    | some pos =>
      let sym := symbol.getD pos.symbol
      let vol0 := cap_volume volume pos.volume
      if env.selectOk = false then .error (.symbolNotSelected sym)
      else
        match env.info with
        | none => .error (.symbolNotFound sym)
        | some info =>
          if info.trade_mode = 0 then .error (.notTradable sym)
          else
            let vol := normalize_volume info vol0
            if vol < info.volume_min then .error (.volumeBelowMin vol info.volume_min)
            else if info.volume_max < vol then .error (.volumeAboveMax vol info.volume_max)
            else
              match supported_fillings info.filling_mode with
              | [] => .error (.noFillingMode sym)
              | f :: fs => .ok { pos := pos, symbol := sym, info := info, volume := vol,
                                 caps := f :: fs, filling := f }

/-- The close-order request dictionary built during one attempt
(lines 420-432): inverse side of the position, price re-fetched for the
attempt, deviation `20 + attempt * 10`. -/
def close_request (sym : String) (vol : ℚ) (pos : PositionState) (ticket attempt : ℕ)
    (filling : Filling) (tick : Tick) : TradeRequest :=
  { symbol := sym, volume := vol, otype := if pos.ptype = 0 then 1 else 0,
    price := if pos.ptype = 0 then tick.bid else tick.ask,
    deviation := 20 + attempt * 10, magic := pos.magic,
    comment := "Close " ++ toString ticket, type_filling := filling,
    sl := none, tp := none, position := some ticket }

/-- The retry loop of `close_trade` (lines 416-465).  `attempt` is the Python
loop index; `fuel` is the number of iterations left (`max_retries - attempt`),
so structural recursion on `fuel` reproduces `for attempt in
range(max_retries)`.  The first component collects the requests handed to
`mt5.order_send`, in order. -/
def close_loop (env : CloseEnv) (ticket : ℕ) (max_retries : ℕ) (pos : PositionState)
    (sym : String) (vol : ℚ) (caps : List Filling) (filling : Filling)
    (attempt : ℕ) : ℕ → List TradeRequest × Except CloseErr CloseOk
  | 0 => ([], .error (.closeExhausted max_retries))
  | fuel + 1 =>
    match env.ticks attempt with
    | none => ([], .error (.noPrice sym))
    | some tick =>
      let req := close_request sym vol pos ticket attempt filling tick
      match env.send attempt req with
      | none => ([req], .error (.closeFailedCode env.last_error.1 env.last_error.2))
      | some r =>
        if r.retcode = 10009 then
          ([req], .ok { deal := r.deal, retcode := r.retcode, price := r.price,
                        volume := r.volume, profit := pos.profit, symbol := sym,
                        position_type := if pos.ptype = 0 then "BUY" else "SELL" })
        else if r.retcode = 10021 ∧ attempt < max_retries - 1 then
          let next := close_loop env ticket max_retries pos sym vol caps
            (caps.getD 1 filling) (attempt + 1) fuel
          (req :: next.1, next.2)
        else ([req], .error (.closeFailedMsg (error_message r.retcode)))

/-- `MT5Connector.close_trade` (lines 376-468): first component is the list
of requests handed to `mt5.order_send`, in order. -/
def close_trade (env : CloseEnv) (connected : Bool) (ticket : ℕ)
    (volume : Option ℚ) (symbol : Option String) (max_retries : ℕ) :
    List TradeRequest × Except CloseErr CloseOk :=
  match close_prepare env connected ticket volume symbol with
  | .error e => ([], .error e)
  | .ok p => close_loop env ticket max_retries p.pos p.symbol p.volume p.caps p.filling
      0 max_retries

/-- Lookup in a Python dict modelled as an association list. -/
def dlookup {α : Type} : List (String × α) → String → Option α
  | [], _ => none
  | (k, v) :: rest, k' => if k = k' then some v else dlookup rest k'

/-- `del d[k]` (also the no-op when the key is absent). -/
def derase {α : Type} : List (String × α) → String → List (String × α)
  | [], _ => []
  | (k, v) :: rest, k' => if k = k' then derase rest k' else (k, v) :: derase rest k'

/-- `d[k] = v`. -/
def dset {α : Type} (d : List (String × α)) (k : String) (v : α) : List (String × α) :=
  (k, v) :: derase d k

/-- The mutable connector state touched by the streaming methods
(`__init__`, lines 28-35): `price_threads` maps a symbol to the identity of
its worker thread (a fresh number drawn from `next_thread`). -/
structure StreamState where
  connected : Bool
  shutdown_event : Bool
  active_subscriptions : List (String × List ℕ)
  price_threads : List (String × ℕ)
  next_thread : ℕ
deriving DecidableEq

/-- `MT5Connector.start_price_stream` (lines 195-240), up to starting the
thread: an existing worker only gains the subscriber (idempotently); a fresh
symbol gets a singleton subscriber set and a new worker. -/
def start_price_stream (s : StreamState) (symbol : String) (client_id : ℕ) : StreamState :=
  match dlookup s.price_threads symbol with
  | some _ =>
    let cur := (dlookup s.active_subscriptions symbol).getD []
    if client_id ∈ cur then s
    else { s with active_subscriptions := dset s.active_subscriptions symbol (cur ++ [client_id]) }
  | none =>
    { s with active_subscriptions := dset s.active_subscriptions symbol [client_id],
             price_threads := dset s.price_threads symbol s.next_thread,
             next_thread := s.next_thread + 1 }

/-- `MT5Connector.stop_price_stream` (lines 242-261). -/
def stop_price_stream (s : StreamState) (symbol : String) (client_id : Option ℕ) :
    StreamState :=
  match dlookup s.active_subscriptions symbol with
  | none => s
  | some l =>
    match client_id with
    | some c =>
      let l' := if c ∈ l then l.erase c else l
      if l' = [] then
        { s with active_subscriptions := derase s.active_subscriptions symbol,
                 price_threads := derase s.price_threads symbol }
      else { s with active_subscriptions := dset s.active_subscriptions symbol l' }
    | none =>
      { s with active_subscriptions := derase s.active_subscriptions symbol,
               price_threads := derase s.price_threads symbol }

/-- Lines 231-234: the cleanup a worker performs when its loop exits. -/
def worker_exit (s : StreamState) (symbol : String) : StreamState :=
  { s with price_threads := derase s.price_threads symbol,
           active_subscriptions := derase s.active_subscriptions symbol }

/-- One `price_worker` loop body per list element (lines 208-230).  An
element `some (bid, ask)` is a successful `get_price` with that quote
signature (the `f"{bid}-{ask}"` string, modelled as the pair); `none` is a
failed fetch.  The state is the pair `(last_price, error_count)`; the run
returns `none` when the loop breaks at the error threshold (five consecutive
failures, the count being reset only when a changed quote is published), and
the surviving state otherwise. -/
def worker_run : Option (ℚ × ℚ) → ℕ → List (Option (ℚ × ℚ)) →
    Option (Option (ℚ × ℚ) × ℕ)
  | last, ec, [] => some (last, ec)
  | last, ec, some q :: rest =>
    if some q = last then worker_run last ec rest
    else worker_run (some q) 0 rest
  | last, ec, none :: rest =>
    if 5 ≤ ec + 1 then none
    else worker_run last (ec + 1) rest

/-- Events of `MT5Connector.disconnect` (lines 63-83), in program order:
`shutdown_event.set()`, one `stop_price_stream(symbol)` per registered
worker, and finally `mt5.shutdown()`. -/
inductive DiscEvent
  | signalShutdown
  | stopWorker (symbol : String)
  | sessionShutdown
deriving DecidableEq

/-- `MT5Connector.disconnect` (lines 63-83).  The returned `Bool` is the
success flag; the event list records the order of the side effects.  Note
that by line 72 the `price_threads` dict has already been emptied by the
`stop_price_stream` calls, so the join loop iterates over nothing. -/
def disconnect (s : StreamState) : StreamState × Bool × List DiscEvent :=
  let keys := s.price_threads.map Prod.fst
  let s1 := { s with connected := false, shutdown_event := true }
  let s2 := keys.foldl (fun st sym => stop_price_stream st sym none) s1
  let s3 := { s2 with active_subscriptions := [], price_threads := [] }
  (s3, true, DiscEvent.signalShutdown ::
    (keys.map DiscEvent.stopWorker ++ [DiscEvent.sessionShutdown]))

/-- One bar of `mt5.copy_rates_from_pos(symbol, TIMEFRAME_M1, 0, 1)`
(fields used at lines 151-161). -/
structure Bar where
  time : ℤ
  close : ℚ
  high : ℚ
  low : ℚ
deriving DecidableEq

/-- The `return False, {...}` paths of `get_price` (lines 131-193),
by error code. -/
inductive PriceErr
  | notConnected
  | symbolNotSelected (symbol : String)
  | noPriceData (symbol : String)
deriving DecidableEq

/-- The success payload of `get_price` (lines 152-162 and 180-190).
`time` carries the raw venue timestamp (the source formats it with
`datetime.fromtimestamp(...).isoformat()`); `timestamp` carries the wall
clock `time.time()` supplied by the environment. -/
structure PriceData where
  symbol : String
  bid : ℚ
  ask : ℚ
  spread : ℚ
  time : ℤ
  timestamp : ℚ
  high : ℚ
  low : ℚ
  marketStatus : String
deriving DecidableEq

/-- One `self.symbol_data[symbol]` entry (lines 167 and 173-178). -/
structure SymData where
  high : Option ℚ
  low : Option ℚ
  last_close : Option ℚ
  last_timestamp : Option ℤ
deriving DecidableEq

/-- Python `x or default` on an optional float: `None` and `0.0` are both
falsy (line 168-169). -/
def pyOr (o : Option ℚ) (default : ℚ) : ℚ :=
  match o with
  | none => default
  | some v => if v = 0 then default else v

/-- Venue responses seen by one `get_price` call. -/
structure PriceEnv where
  selectOk : Bool
  tick : Option Tick
  rates : List Bar
  info : Option SymbolInfo
  now : ℚ

/-- `MT5Connector.get_price` (lines 131-193); `sd` is the prior
`self.symbol_data.get(symbol, ...)` entry, and the second component is the
entry stored back (unchanged on the bar-fallback and error paths). -/
def get_price (env : PriceEnv) (connected : Bool) (symbol : String)
    (sd : Option SymData) : Except PriceErr PriceData × Option SymData :=
  if connected = false then (.error .notConnected, sd)
  else if env.selectOk = false then (.error (.symbolNotSelected symbol), sd)
  else
    match env.tick with
    | none =>
      match env.rates with
      | [] => (.error (.noPriceData symbol), sd)
      | rate :: _ =>
        (.ok { symbol := symbol, bid := rate.close, ask := rate.close, spread := 0,
               time := rate.time, timestamp := env.now, high := rate.high,
               low := rate.low, marketStatus := "CLOSED" }, sd)
    | some tick =>
      let spread := match env.info with
        | some i => if 0 < i.point then (tick.ask - tick.bid) / i.point else 0
        | none => 0
      let cur := sd.getD { high := none, low := none, last_close := none,
                           last_timestamp := none }
      let ch := max (pyOr cur.high tick.bid) (max tick.bid tick.ask)
      let cl := min (pyOr cur.low tick.bid) (min tick.bid tick.ask)
      let lc : Option ℚ := match env.info with
        | some i => if i.trade_mode = 0 then some tick.bid else cur.last_close
        | none => cur.last_close
      let ms := match env.info with
        | some i => if i.trade_mode ≠ 0 then "TRADEABLE" else "CLOSED"
        | none => "CLOSED"
      (.ok { symbol := symbol, bid := tick.bid, ask := tick.ask, spread := spread,
             time := tick.time, timestamp := env.now, high := ch, low := cl,
             marketStatus := ms },
       some { high := some ch, low := some cl, last_close := lc,
              last_timestamp := some tick.time })

/-- A gold-like instrument used by the concrete examples: 2 digits, volume
step 0.01, volume bounds [0.01, 10], 300-point stop level (minimum stop
distance 3.0), FOK-only filling capability. -/
def exInfo : SymbolInfo :=
  { point := 1/100, digits := 2, spread := 0, trade_mode := 1, volume_min := 1/100,
    volume_max := 10, volume_step := 1/100, stops_level := 300, filling_mode := 1 }

/-- A tick quoting 1.0/1.0. -/
def exTick : Tick := { bid := 1, ask := 1, time := 0 }

/-- A successful `order_send` result. -/
def okSend : SendResult := { retcode := 10009, order := 1, deal := 1, volume := 1, price := 1 }

/-- A venue that accepts every order. -/
def placeEnvOk : PlaceEnv :=
  { selectOk := true, info := some exInfo, tick := some exTick,
    send := fun _ _ => some okSend, last_error1 := (0, ""), last_error2 := (0, "") }

/-- A venue whose instrument reports filling-capability bitmask 0. -/
def placeEnvNoFill : PlaceEnv :=
  { selectOk := true, info := some { exInfo with filling_mode := 0 }, tick := some exTick,
    send := fun _ _ => none, last_error1 := (0, ""), last_error2 := (0, "") }

/-- A venue on which every `order_send` returns no result and `last_error`
reports the requote code 10013. -/
def placeEnvRequote : PlaceEnv :=
  { selectOk := true, info := some exInfo, tick := some exTick,
    send := fun _ _ => none,
    last_error1 := (10013, "Requote"), last_error2 := (10013, "Requote") }

/-- The prepared state of a plain BUY of 1 lot on `exInfo` at `exTick`. -/
def prepPlain : PlacePrep :=
  { info := exInfo,
    req := { symbol := "X", volume := 1, otype := 0, price := 1, deviation := 20,
             magic := 0, comment := "", type_filling := Filling.FOK,
             sl := none, tp := none, position := none },
    sl := 0, tp := 0 }

/-- The prepared state of a BUY of 0.127 lots on `exInfo` at `exTick`:
volume quantized and clamped to 0.13. -/
def prepVolume : PlacePrep :=
  { info := exInfo,
    req := { symbol := "X", volume := 13/100, otype := 0, price := 1, deviation := 20,
             magic := 0, comment := "", type_filling := Filling.FOK,
             sl := none, tp := none, position := none },
    sl := 0, tp := 0 }

/-- An open BUY position of 1 lot. -/
def exPos : PositionState :=
  { symbol := "XAUUSD", ptype := 0, volume := 1, magic := 0, profit := 5 }

/-- The example instrument with all three filling capabilities (bitmask 7). -/
def fillInfo : SymbolInfo := { exInfo with filling_mode := 7 }

/-- A venue on which every close attempt is rejected with retcode 10021 and
the instrument supports all three filling modes. -/
def closeEnvInvalid : CloseEnv :=
  { position := some exPos, selectOk := true,
    info := some fillInfo,
    ticks := fun _ => some { bid := 2, ask := 3, time := 0 },
    send := fun _ _ => some { retcode := 10021, order := 1, deal := 1, volume := 1, price := 2 },
    last_error := (0, "") }

/-- An instrument whose volume minimum exceeds its maximum, making the
post-normalization volume check of `close_trade` reachable. -/
def volInfo : SymbolInfo :=
  { exInfo with volume_min := 2, volume_max := 1, volume_step := 1 }

/-- A venue with the `volInfo` instrument. -/
def closeEnvVolume : CloseEnv :=
  { position := some exPos, selectOk := true,
    info := some volInfo,
    ticks := fun _ => some { bid := 2, ask := 3, time := 0 },
    send := fun _ _ => none, last_error := (0, "") }

/-- A market-closed venue: no tick, one historical one-minute bar. -/
def priceEnvBar : PriceEnv :=
  { selectOk := true, tick := none,
    rates := [{ time := 100, close := 5, high := 7, low := 3 }],
    info := some exInfo, now := 0 }

/-- The connector state right after `__init__`. -/
def emptyStream : StreamState :=
  { connected := true, shutdown_event := false, active_subscriptions := [],
    price_threads := [], next_thread := 0 }

/-- The request submitted when buying 1 lot at ask 1.0 with SL distance 0.5
on `exInfo`: the distance is widened to the 3.0 minimum stop distance and
the SL price recomputed to -2.00. -/
def reqSL : TradeRequest :=
  { symbol := "X", volume := 1, otype := 0, price := 1, deviation := 20, magic := 0,
    comment := "", type_filling := Filling.FOK, sl := some (-2), tp := none,
    position := none }

/-- Inversion: a successful `place_prepare` pins down every field of the
request handed to `order_send`. -/
theorem place_prepare_ok_req {env : PlaceEnv} {connected : Bool} {symbol : String}
    {volume : ℚ} {order_type : String} {sl_distance tp_distance : Option ℚ}
    {comment : String} {magic : ℤ} {p : PlacePrep}
    (h : place_prepare env connected symbol volume order_type sl_distance tp_distance
        comment magic = .ok p) :
    connected = true ∧ env.selectOk = true ∧ env.info = some p.info ∧
    p.info.trade_mode ≠ 0 ∧
    ∃ tick pr, env.tick = some tick ∧
      place_branch order_type.toUpper tick = some pr ∧
      supported_fillings p.info.filling_mode ≠ [] ∧
      p.req = { symbol := symbol, volume := normalize_volume p.info volume, otype := pr.1,
                price := pr.2, deviation := 20, magic := magic, comment := comment,
                type_filling := (supported_fillings p.info.filling_mode).headI,
                sl := (place_adjust_sl order_type.toUpper sl_distance
                        (sl_pre order_type.toUpper sl_distance pr.2 p.info.digits)
                        (p.info.stops_level * p.info.point) pr.2 p.info.digits).1,
                tp := (place_adjust_tp order_type.toUpper tp_distance
                        (tp_pre order_type.toUpper tp_distance pr.2 p.info.digits)
                        (p.info.stops_level * p.info.point) pr.2 p.info.digits).1,
                position := none } ∧
      p.sl = (place_adjust_sl order_type.toUpper sl_distance
                (sl_pre order_type.toUpper sl_distance pr.2 p.info.digits)
                (p.info.stops_level * p.info.point) pr.2 p.info.digits).2 ∧
      p.tp = (place_adjust_tp order_type.toUpper tp_distance
                (tp_pre order_type.toUpper tp_distance pr.2 p.info.digits)
                (p.info.stops_level * p.info.point) pr.2 p.info.digits).2 := by
  unfold place_prepare at h
  by_cases hc : connected = false
  · simp [hc] at h
  simp only [hc, if_false] at h
  by_cases hs : env.selectOk = false
  · simp [hs] at h
  simp only [hs, if_false] at h
  rcases hI : env.info with _ | info
  · simp [hI] at h
  simp only [hI] at h
  by_cases htm : info.trade_mode = 0
  · simp [htm] at h
  simp only [htm, if_false] at h
  rcases hT : env.tick with _ | tick
  · simp [hT] at h
  simp only [hT] at h
  rcases hbr : place_branch order_type.toUpper tick with _ | pr
  · simp [hbr] at h
  simp only [hbr] at h
  rcases hcaps : supported_fillings info.filling_mode with _ | ⟨f, fs⟩
  · simp [hcaps] at h
  simp only [hcaps] at h
  cases h
  rw [Bool.not_eq_false] at hc hs
  refine ⟨hc, hs, rfl, htm, tick, pr, rfl, hbr, ?_, ?_, rfl, rfl⟩
  · simp [hcaps]
  · simp [hcaps]

/-- Every request `place_trade` hands to `order_send` is the prepared request
or its deviation-50 resubmission. -/
theorem place_submit_mem (env : PlaceEnv) (comment : String) (p : PlacePrep) :
    ∀ r ∈ (place_submit env comment p).1,
      r = p.req ∨ r = { p.req with deviation := 50 } := by
  intro r hr
  unfold place_submit at hr
  rcases h0 : env.send 0 p.req with _ | r0
  · simp only [h0] at hr
    by_cases h1 : env.last_error1.1 = 10013
    · rw [if_pos h1] at hr
      rcases h2 : env.send 1 { p.req with deviation := 50 } with _ | r1
      · simp only [h2, List.mem_cons, List.mem_singleton] at hr
        rcases hr with h | h | h
        · exact Or.inl h
        · exact Or.inr h
        · cases h
      · simp only [h2, List.mem_cons, List.mem_singleton] at hr
        rcases hr with h | h | h
        · exact Or.inl h
        · exact Or.inr h
        · cases h
    · rw [if_neg h1] at hr
      simp only [List.mem_singleton] at hr
      exact Or.inl hr
  · simp only [h0, List.mem_singleton] at hr
    exact Or.inl hr

/-- Inversion: a successful `close_prepare` pins down the prepared close
parameters. -/
theorem close_prepare_ok_fields {env : CloseEnv} {connected : Bool} {ticket : ℕ}
    {volume : Option ℚ} {symbol : Option String} {p : ClosePrep}
    (h : close_prepare env connected ticket volume symbol = .ok p) :
    connected = true ∧ env.position = some p.pos ∧ env.selectOk = true ∧
    env.info = some p.info ∧ p.info.trade_mode ≠ 0 ∧
    p.symbol = symbol.getD p.pos.symbol ∧
    p.volume = normalize_volume p.info (cap_volume volume p.pos.volume) ∧
    ¬ p.volume < p.info.volume_min ∧ ¬ p.info.volume_max < p.volume ∧
    p.caps = supported_fillings p.info.filling_mode ∧
    p.caps ≠ [] ∧ p.filling = p.caps.headI := by
  unfold close_prepare at h
  by_cases hc : connected = false
  · simp [hc] at h
  simp only [hc, if_false] at h
  rcases hP : env.position with _ | pos
  · simp [hP] at h
  simp only [hP] at h
  by_cases hs : env.selectOk = false
  · simp [hs] at h
  simp only [hs, if_false] at h
  rcases hI : env.info with _ | info
  · simp [hI] at h
  simp only [hI] at h
  by_cases htm : info.trade_mode = 0
  · simp [htm] at h
  simp only [htm, if_false] at h
  by_cases hmin : normalize_volume info (cap_volume volume pos.volume) < info.volume_min
  · simp [hmin] at h
  rw [if_neg hmin] at h
  by_cases hmax : info.volume_max < normalize_volume info (cap_volume volume pos.volume)
  · simp [hmax] at h
  rw [if_neg hmax] at h
  rcases hcaps : supported_fillings info.filling_mode with _ | ⟨f, fs⟩
  · simp [hcaps] at h
  simp only [hcaps] at h
  cases h
  rw [Bool.not_eq_false] at hc hs
  exact ⟨hc, rfl, hs, rfl, htm, rfl, rfl, hmin, hmax, hcaps.symm, by simp, rfl⟩

/-- Every request submitted by the close retry loop carries the prepared
volume. -/
theorem close_loop_mem_volume (env : CloseEnv) (ticket : ℕ) (mr : ℕ)
    (pos : PositionState) (sym : String) (vol : ℚ) (caps : List Filling) :
    ∀ fuel attempt filling,
      ∀ r ∈ (close_loop env ticket mr pos sym vol caps filling attempt fuel).1,
        r.volume = vol := by
  intro fuel
  induction fuel with
  | zero => intro attempt filling r hr; simp [close_loop] at hr
  | succ n ih =>
    intro attempt filling r hr
    unfold close_loop at hr
    rcases hT : env.ticks attempt with _ | tick
    · simp [hT] at hr
    simp only [hT] at hr
    rcases hS : env.send attempt (close_request sym vol pos ticket attempt filling tick)
      with _ | res
    · simp only [hS, List.mem_singleton] at hr; subst hr; rfl
    simp only [hS] at hr
    by_cases hd : res.retcode = 10009
    · rw [if_pos hd] at hr
      simp only [List.mem_singleton] at hr; subst hr; rfl
    rw [if_neg hd] at hr
    by_cases hrt : res.retcode = 10021 ∧ attempt < mr - 1
    · rw [if_pos hrt] at hr
      simp only [List.mem_cons] at hr
      rcases hr with h | h
      · subst h; rfl
      · exact ih (attempt + 1) (caps.getD 1 filling) r h
    · rw [if_neg hrt] at hr
      simp only [List.mem_singleton] at hr; subst hr; rfl

/-- `supported_fillings[1] if len > 1 else filling` is idempotent: once the
loop has fallen back, further fallbacks leave the filling unchanged. -/
theorem getD_one_idem (caps : List Filling) (f : Filling) :
    caps.getD 1 (caps.getD 1 f) = caps.getD 1 f := by
  match caps with
  | [] => rfl
  | [a] => rfl
  | a :: b :: t => rfl

/-- Full characterization of the `j`-th request submitted by the close retry
loop: it is built from the tick re-fetched for attempt `attempt + j`, carries
deviation `20 + (attempt + j) * 10`, and uses the starting filling for the
first submission and the fallback filling `caps[1]` (when it exists) for
every later one. -/
theorem close_loop_get (env : CloseEnv) (ticket : ℕ) (mr : ℕ)
    (pos : PositionState) (sym : String) (vol : ℚ) (caps : List Filling) :
    ∀ fuel attempt filling j r,
      (close_loop env ticket mr pos sym vol caps filling attempt fuel).1.get? j = some r →
      ∃ tick, env.ticks (attempt + j) = some tick ∧
        r = close_request sym vol pos ticket (attempt + j)
          (if j = 0 then filling else caps.getD 1 filling) tick := by
  intro fuel
  induction fuel with
  | zero => intro attempt filling j r hr; simp [close_loop] at hr
  | succ n ih =>
    intro attempt filling j r hr
    unfold close_loop at hr
    rcases hT : env.ticks attempt with _ | tick
    · simp [hT] at hr
    simp only [hT] at hr
    rcases hS : env.send attempt (close_request sym vol pos ticket attempt filling tick)
      with _ | res
    · simp only [hS] at hr
      rcases j with _ | k
      · simp only [List.get?] at hr
        cases hr
        exact ⟨tick, by simpa using hT, by simp⟩
      · simp [List.get?] at hr
    simp only [hS] at hr
    by_cases hd : res.retcode = 10009
    · rw [if_pos hd] at hr
      rcases j with _ | k
      · simp only [List.get?] at hr
        cases hr
        exact ⟨tick, by simpa using hT, by simp⟩
      · simp [List.get?] at hr
    rw [if_neg hd] at hr
    by_cases hrt : res.retcode = 10021 ∧ attempt < mr - 1
    · rw [if_pos hrt] at hr
      rcases j with _ | k
      · simp only [List.get?] at hr
        cases hr
        exact ⟨tick, by simpa using hT, by simp⟩
      · simp only [List.get?] at hr
        obtain ⟨tick2, hT2, hreq⟩ := ih (attempt + 1) (caps.getD 1 filling) k r hr
        refine ⟨tick2, by simpa [Nat.add_assoc, Nat.add_comm 1 k] using hT2, ?_⟩
        rcases k with _ | k2
        · simpa [Nat.add_comm 1 0] using hreq
        · rw [hreq, getD_one_idem]
          simp [Nat.add_assoc, Nat.add_comm 1 (k2 + 1)]
    · rw [if_neg hrt] at hr
      rcases j with _ | k
      · simp only [List.get?] at hr
        cases hr
        exact ⟨tick, by simpa using hT, by simp⟩
      · simp [List.get?] at hr

/-- Lookup after deletion in the dict model. -/
theorem dlookup_derase {α : Type} (d : List (String × α)) (k k' : String) :
    dlookup (derase d k) k' = if k = k' then none else dlookup d k' := by
  induction d with
  | nil => simp [derase, dlookup]
  | cons p rest ih =>
    obtain ⟨a, b⟩ := p
    by_cases h1 : a = k <;> by_cases h2 : a = k' <;> by_cases h3 : k = k' <;>
      simp_all [derase, dlookup]

/-- Lookup after insertion in the dict model. -/
theorem dlookup_dset {α : Type} (d : List (String × α)) (k k' : String) (v : α) :
    dlookup (dset d k v) k' = if k = k' then some v else dlookup d k' := by
  unfold dset
  simp only [dlookup]
  rw [dlookup_derase]
  by_cases h : k = k' <;> simp [h]

/-- Five consecutive fetch failures always break the worker loop, whatever
the error count already was. -/
theorem worker_run_five_failures (last : Option (ℚ × ℚ)) (ec : ℕ)
    (rest : List (Option (ℚ × ℚ))) :
    worker_run last ec (List.replicate 5 none ++ rest) = none := by
  by_cases h1 : 5 ≤ ec + 1
  · simp [List.replicate, worker_run, h1]
  by_cases h2 : 5 ≤ ec + 2
  · simp [List.replicate, worker_run, h1, h2]
  by_cases h3 : 5 ≤ ec + 3
  · simp [List.replicate, worker_run, h1, h2, h3]
  by_cases h4 : 5 ≤ ec + 4
  · simp [List.replicate, worker_run, h1, h2, h3, h4]
  have h5 : 5 ≤ ec + 5 := by omega
  simp [List.replicate, worker_run, h1, h2, h3, h4, h5]

/-- The invariant of claim C7: a symbol has a registered worker exactly when
its subscriber set is present and non-empty. -/
def SubsInv (s : StreamState) : Prop :=
  ∀ sym, (dlookup s.price_threads sym).isSome ↔
    ∃ l, dlookup s.active_subscriptions sym = some l ∧ l ≠ []

/-- `start_price_stream` preserves the worker/subscriber invariant. -/
theorem SubsInv_start (s : StreamState) (sym : String) (c : ℕ) (h : SubsInv s) :
    SubsInv (start_price_stream s sym c) := by
  intro x
  rcases hT : dlookup s.price_threads sym with _ | t
  · simp only [start_price_stream, hT]
    by_cases hx : sym = x
    · subst hx
      simp [dlookup_dset, hT]
    · simp only [dlookup_dset, hx, if_neg, if_false]
      exact h x
  · simp only [start_price_stream, hT]
    by_cases hc : c ∈ (dlookup s.active_subscriptions sym).getD []
    · simp only [hc, if_true]
      exact h x
    · simp only [hc, if_false]
      by_cases hx : sym = x
      · subst hx
        simp [dlookup_dset, hT]
      · simp only [dlookup_dset, hx, if_false]
        exact h x

/-- `stop_price_stream` preserves the worker/subscriber invariant. -/
theorem SubsInv_stop (s : StreamState) (sym : String) (c : Option ℕ) (h : SubsInv s) :
    SubsInv (stop_price_stream s sym c) := by
  intro x
  rcases hS : dlookup s.active_subscriptions sym with _ | l
  · simpa [stop_price_stream, hS] using h x
  rcases c with _ | cid
  · simp only [stop_price_stream, hS]
    by_cases hx : sym = x
    · subst hx; simp [dlookup_derase]
    · simp only [dlookup_derase, hx, if_false]
      exact h x
  · simp only [stop_price_stream, hS]
    by_cases he : (if cid ∈ l then l.erase cid else l) = []
    · simp only [he, if_true]
      by_cases hx : sym = x
      · subst hx; simp [dlookup_derase]
      · simp only [dlookup_derase, hx, if_false]
        exact h x
    · simp only [he, if_false]
      by_cases hx : sym = x
      · subst hx
        simp only [dlookup_dset, if_pos rfl]
        constructor
        · intro _
          exact ⟨_, rfl, he⟩
        · intro _
          have hl : l ≠ [] := by
            intro hnil
            subst hnil
            simp at he
          exact (h sym).mpr ⟨l, hS, hl⟩
      · simp only [dlookup_dset, hx, if_false]
        exact h x

/-- Worker-exit cleanup preserves the worker/subscriber invariant. -/
theorem SubsInv_worker_exit (s : StreamState) (sym : String) (h : SubsInv s) :
    SubsInv (worker_exit s sym) := by
  intro x
  by_cases hx : sym = x
  · subst hx; simp [worker_exit, dlookup_derase]
  · simp only [worker_exit, dlookup_derase, hx, if_false]
    exact h x

/-- C7: a symbol has an active stream worker iff its subscriber set is
non-empty — the invariant is preserved by subscribe, unsubscribe and worker
exit; and in the two-subscriber scenario the second subscribe only extends
the subscriber set of the one existing worker (idempotently, allocating no
new worker), unsubscribing one of the two leaves that worker registered, and
unsubscribing the last removes both the subscriber set and the worker
entry. -/
theorem C7_subscriber_reference_counting :
    (∀ s sym c, SubsInv s → SubsInv (start_price_stream s sym c)) ∧
    (∀ s sym c, SubsInv s → SubsInv (stop_price_stream s sym c)) ∧
    (∀ s sym, SubsInv s → SubsInv (worker_exit s sym)) ∧
    (∀ (s : StreamState) (sym : String) (a b : ℕ), a ≠ b →
      dlookup s.active_subscriptions sym = none →
      dlookup s.price_threads sym = none →
      dlookup (start_price_stream s sym a).price_threads sym = some s.next_thread ∧
      dlookup (start_price_stream s sym a).active_subscriptions sym = some [a] ∧
      start_price_stream (start_price_stream s sym a) sym a =
        start_price_stream s sym a ∧
      dlookup (start_price_stream (start_price_stream s sym a) sym b).price_threads sym =
        some s.next_thread ∧
      (start_price_stream (start_price_stream s sym a) sym b).next_thread =
        (start_price_stream s sym a).next_thread ∧
      dlookup (StreamState.active_subscriptions
        (start_price_stream (start_price_stream s sym a) sym b)) sym = some [a, b] ∧
      dlookup (StreamState.price_threads (stop_price_stream
        (start_price_stream (start_price_stream s sym a) sym b) sym (some a))) sym =
        some s.next_thread ∧
      dlookup (StreamState.active_subscriptions (stop_price_stream
        (start_price_stream (start_price_stream s sym a) sym b) sym (some a))) sym =
        some [b] ∧
      dlookup (StreamState.price_threads (stop_price_stream (stop_price_stream
        (start_price_stream (start_price_stream s sym a) sym b) sym (some a)) sym
        (some b))) sym = none ∧
      dlookup (StreamState.active_subscriptions (stop_price_stream (stop_price_stream
        (start_price_stream (start_price_stream s sym a) sym b) sym (some a)) sym
        (some b))) sym = none) := by
  refine ⟨SubsInv_start, SubsInv_stop, SubsInv_worker_exit, ?_⟩
  intro s sym a b hab hsub hthr
  have hba : ¬ b = a := fun h => hab h.symm
  have e1 : start_price_stream s sym a =
      { s with active_subscriptions := dset s.active_subscriptions sym [a],
               price_threads := dset s.price_threads sym s.next_thread,
               next_thread := s.next_thread + 1 } := by
    simp [start_price_stream, hthr]
  have e2 : start_price_stream
      { s with active_subscriptions := dset s.active_subscriptions sym [a],
               price_threads := dset s.price_threads sym s.next_thread,
               next_thread := s.next_thread + 1 } sym b =
      { s with active_subscriptions := dset (dset s.active_subscriptions sym [a]) sym [a, b],
               price_threads := dset s.price_threads sym s.next_thread,
               next_thread := s.next_thread + 1 } := by
    simp [start_price_stream, dlookup_dset, hba]
  have e3 : stop_price_stream
      { s with active_subscriptions := dset (dset s.active_subscriptions sym [a]) sym [a, b],
               price_threads := dset s.price_threads sym s.next_thread,
               next_thread := s.next_thread + 1 } sym (some a) =
      { s with active_subscriptions :=
                 dset (dset (dset s.active_subscriptions sym [a]) sym [a, b]) sym [b],
               price_threads := dset s.price_threads sym s.next_thread,
               next_thread := s.next_thread + 1 } := by
    simp [stop_price_stream, dlookup_dset, hba]
  have e4 : stop_price_stream
      { s with active_subscriptions :=
                 dset (dset (dset s.active_subscriptions sym [a]) sym [a, b]) sym [b],
               price_threads := dset s.price_threads sym s.next_thread,
               next_thread := s.next_thread + 1 } sym (some b) =
      { s with active_subscriptions :=
                 derase (dset (dset (dset s.active_subscriptions sym [a]) sym [a, b]) sym [b])
                   sym,
               price_threads := derase (dset s.price_threads sym s.next_thread) sym,
               next_thread := s.next_thread + 1 } := by
    simp [stop_price_stream, dlookup_dset]
  have hidem : start_price_stream (start_price_stream s sym a) sym a =
      start_price_stream s sym a := by
    rw [e1]
    simp [start_price_stream, dlookup_dset]
  refine ⟨?_, ?_, hidem, ?_, ?_, ?_, ?_, ?_, ?_, ?_⟩
  · rw [e1]; simp [dlookup_dset]
  · rw [e1]; simp [dlookup_dset]
  · rw [e1, e2]; simp [dlookup_dset]
  · rw [e1, e2]
  · rw [e1, e2]; simp [dlookup_dset]
  · rw [e1, e2, e3]; simp [dlookup_dset]
  · rw [e1, e2, e3]; simp [dlookup_dset]
  · rw [e1, e2, e3, e4]; simp [dlookup_derase]
  · rw [e1, e2, e3, e4]; simp [dlookup_derase]

/-- C1: every volume handed to `order_send` — by `place_trade` and by
`close_trade` — equals `clamp(round(volume/step)*step, min, max)` of the
instrument, where for a close the requested volume has first been capped at
the position's remaining volume (line 391); and the worked example holds:
step 0.01, min 0.01, max 10, request 0.127 → submitted 0.13. -/
theorem C1_volume_normalization :
    (∀ (env : PlaceEnv) (connected : Bool) (symbol : String) (volume : ℚ)
       (order_type : String) (sl_distance tp_distance : Option ℚ)
       (comment : String) (magic : ℤ) (info : SymbolInfo),
      env.info = some info →
      ∀ r ∈ (place_trade env connected symbol volume order_type sl_distance tp_distance
          comment magic).1,
        r.volume = normalize_volume info volume) ∧
    (∀ (env : CloseEnv) (connected : Bool) (ticket : ℕ) (volume : Option ℚ)
       (symbol : Option String) (mr : ℕ) (info : SymbolInfo) (pos : PositionState),
      env.info = some info → env.position = some pos →
      ∀ r ∈ (close_trade env connected ticket volume symbol mr).1,
        r.volume = normalize_volume info (cap_volume volume pos.volume)) ∧
    normalize_volume exInfo (127/1000) = 13/100 := by
  refine ⟨?_, ?_, by with_unfolding_all rfl⟩
  · intro env connected symbol volume order_type sld tpd comment magic info hinfo r hr
    unfold place_trade at hr
    rcases hp : place_prepare env connected symbol volume order_type sld tpd comment magic
      with e | p
    · rw [hp] at hr; simp at hr
    rw [hp] at hr
    obtain ⟨-, -, hI, -, tick, pr, -, -, -, hreq, -, -⟩ := place_prepare_ok_req hp
    have hpi : p.info = info := by
      rw [hinfo] at hI; exact (Option.some.inj hI).symm
    rcases place_submit_mem env comment p r hr with h | h
    · rw [h, hreq, hpi]
    · rw [h]
      simp [hreq, hpi]
  · intro env connected ticket volume symbol mr info pos hinfo hpos r hr
    unfold close_trade at hr
    rcases hp : close_prepare env connected ticket volume symbol with e | p
    · rw [hp] at hr; simp at hr
    rw [hp] at hr
    obtain ⟨-, hP, -, hI, -, -, hvol, -, -, -, -, -⟩ := close_prepare_ok_fields hp
    have hpi : p.info = info := by rw [hinfo] at hI; exact (Option.some.inj hI).symm
    have hpp : p.pos = pos := by rw [hpos] at hP; exact (Option.some.inj hP).symm
    have h1 := close_loop_mem_volume env ticket mr p.pos p.symbol p.volume p.caps mr 0
      p.filling r hr
    rw [h1, hvol, hpi, hpp]

/-- Witness for C1: the 0.127-lot BUY example submits exactly one request,
whose volume is the normalized 0.13. -/
theorem C1_volume_normalization_witness :
    prepVolume.req.volume = normalize_volume exInfo (127/1000) :=
  C1_volume_normalization.1 placeEnvOk true "X" (127/1000) "BUY" none none "" 0 exInfo rfl
    prepVolume.req (by with_unfolding_all (exact List.mem_singleton.mpr rfl))

/-- C8: five consecutive fetch failures break the worker loop — the error
count being reset only when a changed quote is published, an unchanged quote
leaving it untouched — after which the worker-exit cleanup removes the
symbol from both the worker registry and the subscription map, and a
subsequent `stop_price_stream` for that symbol returns the state unchanged
(no error path exists). -/
theorem C8_error_threshold_circuit_breaker :
    (∀ last ec rest, worker_run last ec (List.replicate 5 none ++ rest) = none) ∧
    (∀ (last : Option (ℚ × ℚ)) (ec : ℕ) (q : ℚ × ℚ) rest,
      worker_run last ec (some q :: rest) =
        if some q = last then worker_run last ec rest else worker_run (some q) 0 rest) ∧
    (∀ s sym, dlookup (worker_exit s sym).price_threads sym = none ∧
      dlookup (worker_exit s sym).active_subscriptions sym = none) ∧
    (∀ s sym c, dlookup s.active_subscriptions sym = none →
      stop_price_stream s sym c = s) ∧
    (∀ s sym c, stop_price_stream (worker_exit s sym) sym c = worker_exit s sym) := by
  refine ⟨worker_run_five_failures, ?_, ?_, ?_, ?_⟩
  · intro last ec q rest; rfl
  · intro s sym
    constructor <;> simp [worker_exit, dlookup_derase]
  · intro s sym c h
    unfold stop_price_stream
    rw [h]
  · intro s sym c
    unfold stop_price_stream
    rw [show dlookup (worker_exit s sym).active_subscriptions sym = none from by
      simp [worker_exit, dlookup_derase]]

/-- Witness for C8: unsubscribing a symbol that has no subscription entry is
a no-op on the freshly initialized connector state. -/
theorem C8_error_threshold_circuit_breaker_witness :
    stop_price_stream emptyStream "XAUUSD" (some 1) = emptyStream :=
  C8_error_threshold_circuit_breaker.2.2.2.1 emptyStream "XAUUSD" (some 1) rfl

/-- `stop_price_stream` never touches the connected flag. -/
theorem stop_price_stream_connected (s : StreamState) (sym : String) (c : Option ℕ) :
    (stop_price_stream s sym c).connected = s.connected := by
  unfold stop_price_stream
  rcases h : dlookup s.active_subscriptions sym with _ | l
  · rfl
  · rcases c with _ | cid
    · rfl
    · dsimp only
      split <;> split <;> rfl

/-- Folding worker teardowns over any key list leaves the connected flag
unchanged. -/
theorem foldl_stop_connected (keys : List String) (st : StreamState) :
    (keys.foldl (fun acc sym => stop_price_stream acc sym none) st).connected =
      st.connected := by
  induction keys generalizing st with
  | nil => rfl
  | cons k ks ih => rw [List.foldl_cons, ih, stop_price_stream_connected]

/-- C9: `disconnect` always reports success, leaves the connected flag
false and both the subscription map and the worker registry empty, is
idempotent (a second call reports success again over empty registries), and
its side effects happen in order: the shutdown signal first, then one
worker teardown per registered worker, and the venue-session release
(`mt5.shutdown`) strictly last. -/
theorem C9_idempotent_disconnect (s : StreamState) :
    (disconnect s).2.1 = true ∧
    (disconnect s).1.connected = false ∧
    (disconnect s).1.active_subscriptions = [] ∧
    (disconnect s).1.price_threads = [] ∧
    (disconnect (disconnect s).1).2.1 = true ∧
    (disconnect (disconnect s).1).1.connected = false ∧
    (disconnect (disconnect s).1).1.active_subscriptions = [] ∧
    (disconnect (disconnect s).1).1.price_threads = [] ∧
    (disconnect s).2.2 = DiscEvent.signalShutdown ::
      (s.price_threads.map (fun p => DiscEvent.stopWorker p.1) ++
        [DiscEvent.sessionShutdown]) ∧
    (disconnect s).2.2.head? = some DiscEvent.signalShutdown ∧
    (disconnect s).2.2.getLast? = some DiscEvent.sessionShutdown := by
  have hconn : ∀ t : StreamState, (disconnect t).1.connected = false := by
    intro t
    show (List.foldl (fun acc sym => stop_price_stream acc sym none)
      { t with connected := false, shutdown_event := true }
      (t.price_threads.map Prod.fst)).connected = false
    rw [foldl_stop_connected]
  refine ⟨rfl, hconn s, rfl, rfl, rfl, hconn (disconnect s).1, rfl, rfl, ?_, rfl, ?_⟩
  · simp [disconnect, List.map_map, Function.comp]
  · show (DiscEvent.signalShutdown ::
      ((s.price_threads.map Prod.fst).map DiscEvent.stopWorker ++
        [DiscEvent.sessionShutdown])).getLast? = some DiscEvent.sessionShutdown
    rw [← List.cons_append, List.getLast?_concat]

/-- C10: on a connected session with a selectable symbol and no current
tick, `get_price` falls back to the last one-minute bar — bid and ask both
the bar close, spread 0, high/low from the bar, market status CLOSED — and
returns the no-price-data failure exactly when the tick and the bar history
are both unavailable. -/
theorem C10_get_price_bar_fallback (env : PriceEnv) (symbol : String)
    (sd : Option SymData) (hsel : env.selectOk = true) (htick : env.tick = none) :
    (env.rates = [] → (get_price env true symbol sd).1 = .error (.noPriceData symbol)) ∧
    (∀ b bs, env.rates = b :: bs →
      (get_price env true symbol sd).1 = .ok
        { symbol := symbol, bid := b.close, ask := b.close, spread := 0, time := b.time,
          timestamp := env.now, high := b.high, low := b.low,
          marketStatus := "CLOSED" }) ∧
    (∀ (env2 : PriceEnv) (sd2 : Option SymData), env2.selectOk = true →
      (get_price env2 true symbol sd2).1 = .error (.noPriceData symbol) →
      env2.tick = none ∧ env2.rates = []) := by
  refine ⟨?_, ?_, ?_⟩
  · intro h; simp [get_price, hsel, htick, h]
  · intro b bs h; simp [get_price, hsel, htick, h]
  · intro env2 sd2 hsel2 h
    rcases ht2 : env2.tick with _ | t2
    · rcases hr2 : env2.rates with _ | ⟨b2, bs2⟩
      · exact ⟨rfl, rfl⟩
      · simp [get_price, hsel2, ht2, hr2] at h
    · simp [get_price, hsel2, ht2] at h

/-- Witness for C10: the concrete closed-market venue with one bar yields
the bar-close quote with CLOSED status. -/
theorem C10_get_price_bar_fallback_witness :
    (get_price priceEnvBar true "XAUUSD" none).1 = .ok
      { symbol := "XAUUSD", bid := 5, ask := 5, spread := 0, time := 100,
        timestamp := 0, high := 7, low := 3, marketStatus := "CLOSED" } :=
  (C10_get_price_bar_fallback priceEnvBar "XAUUSD" none rfl rfl).2.1
    { time := 100, close := 5, high := 7, low := 3 } [] rfl

/-- C3: both operations decode the instrument's filling bitmask in the fixed
priority FOK, IOC, RETURN and submit with the first member of the decoded
list (for a close, the first submission; later retries may fall back, see
C5); an empty capability set fails with the no-supported-filling error
before any request reaches the venue; and bitmask 5 (FOK and RETURN, no
IOC) selects FOK. -/
theorem C3_filling_mode_selection :
    (∀ (env : PlaceEnv) (symbol : String) (volume : ℚ) (order_type : String)
       (sl_distance tp_distance : Option ℚ) (comment : String) (magic : ℤ)
       (info : SymbolInfo) (tick : Tick) (pr : ℕ × ℚ),
      env.selectOk = true → env.info = some info → info.trade_mode ≠ 0 →
      env.tick = some tick → place_branch order_type.toUpper tick = some pr →
      supported_fillings info.filling_mode = [] →
      place_trade env true symbol volume order_type sl_distance tp_distance comment magic
        = ([], .error (.noFillingMode symbol))) ∧
    (∀ (env : PlaceEnv) (connected : Bool) (symbol : String) (volume : ℚ)
       (order_type : String) (sl_distance tp_distance : Option ℚ) (comment : String)
       (magic : ℤ) (p : PlacePrep),
      place_prepare env connected symbol volume order_type sl_distance tp_distance
        comment magic = .ok p →
      (supported_fillings p.info.filling_mode).headI = p.req.type_filling ∧
      ∀ r ∈ (place_trade env connected symbol volume order_type sl_distance tp_distance
          comment magic).1, r.type_filling = p.req.type_filling) ∧
    (∀ (env : CloseEnv) (ticket : ℕ) (volume : Option ℚ) (symbol : Option String)
       (mr : ℕ) (pos : PositionState) (info : SymbolInfo),
      env.position = some pos → env.selectOk = true → env.info = some info →
      info.trade_mode ≠ 0 →
      ¬ normalize_volume info (cap_volume volume pos.volume) < info.volume_min →
      ¬ info.volume_max < normalize_volume info (cap_volume volume pos.volume) →
      supported_fillings info.filling_mode = [] →
      close_trade env true ticket volume symbol mr =
        ([], .error (.noFillingMode (symbol.getD pos.symbol)))) ∧
    (∀ (env : CloseEnv) (connected : Bool) (ticket : ℕ) (volume : Option ℚ)
       (symbol : Option String) (mr : ℕ) (p : ClosePrep),
      close_prepare env connected ticket volume symbol = .ok p →
      p.filling = (supported_fillings p.info.filling_mode).headI ∧
      ∀ r, (close_trade env connected ticket volume symbol mr).1.head? = some r →
        r.type_filling = p.filling) ∧
    supported_fillings 5 = [Filling.FOK, Filling.RETURN] ∧
    supported_fillings 0 = [] := by
  refine ⟨?_, ?_, ?_, ?_, by decide, rfl⟩
  · intro env symbol volume order_type sld tpd comment magic info tick pr hsel hinfo htm
      htick hbr hcaps
    have hp : place_prepare env true symbol volume order_type sld tpd comment magic =
        .error (.noFillingMode symbol) := by
      simp [place_prepare, hsel, hinfo, htm, htick, hbr, hcaps]
    unfold place_trade
    rw [hp]
  · intro env connected symbol volume order_type sld tpd comment magic p hp
    obtain ⟨-, -, -, -, tick, pr, -, -, -, hreq, -, -⟩ := place_prepare_ok_req hp
    constructor
    · rw [hreq]
    · intro r hr
      unfold place_trade at hr
      rw [hp] at hr
      rcases place_submit_mem env comment p r hr with h | h <;> rw [h]
  · intro env ticket volume symbol mr pos info hpos hsel hinfo htm hmin hmax hcaps
    have hp : close_prepare env true ticket volume symbol =
        .error (.noFillingMode (symbol.getD pos.symbol)) := by
      simp [close_prepare, hpos, hsel, hinfo, htm, hmin, hmax, hcaps]
    unfold close_trade
    rw [hp]
  · intro env connected ticket volume symbol mr p hp
    obtain ⟨-, -, -, -, -, -, -, -, -, hcaps, -, hfill⟩ := close_prepare_ok_fields hp
    refine ⟨?_, ?_⟩
    · rw [hfill, hcaps]
    · intro r hr
      unfold close_trade at hr
      rw [hp] at hr
      obtain ⟨tick, -, hreq⟩ := close_loop_get env ticket mr p.pos p.symbol p.volume p.caps
        mr 0 p.filling 0 r (by rw [List.get?_zero]; exact hr)
      rw [hreq]
      simp [close_request]

/-- Witness for C3: filling bitmask 0 makes `place_trade` fail with the
no-supported-filling error and an empty submission trace. -/
theorem C3_filling_mode_selection_witness :
    place_trade placeEnvNoFill true "X" 1 "BUY" none none "" 0 =
      ([], .error (.noFillingMode "X")) :=
  C3_filling_mode_selection.1 placeEnvNoFill "X" 1 "BUY" none none "" 0
    { exInfo with filling_mode := 0 } exTick (0, 1) rfl rfl (by decide) rfl
    (by with_unfolding_all rfl) rfl

/-- C4: with the prepared request carrying price tolerance 20, a no-result
submission whose `last_error` is the requote code 10013 is resubmitted
exactly once at tolerance 50 — a second no-result outcome fails with the
order-failed error carrying the venue code and message, a rejected result
fails through the catalog, and no third submission ever happens; a
no-result submission with any other error code, or a returned result whose
retcode is not 10009 (even the requote retcode itself), fails immediately
after the single submission. -/
theorem C4_requote_retry (env : PlaceEnv) (connected : Bool) (symbol : String)
    (volume : ℚ) (order_type : String) (sl_distance tp_distance : Option ℚ)
    (comment : String) (magic : ℤ) (p : PlacePrep)
    (hp : place_prepare env connected symbol volume order_type sl_distance tp_distance
      comment magic = .ok p) :
    p.req.deviation = 20 ∧
    (env.send 0 p.req = none → env.last_error1.1 = 10013 →
      (place_trade env connected symbol volume order_type sl_distance tp_distance comment
          magic).1 = [p.req, { p.req with deviation := 50 }] ∧
      (env.send 1 { p.req with deviation := 50 } = none →
        (place_trade env connected symbol volume order_type sl_distance tp_distance comment
            magic).2 = .error (.orderFailedCode env.last_error2.1 env.last_error2.2)) ∧
      (∀ r, env.send 1 { p.req with deviation := 50 } = some r → r.retcode ≠ 10009 →
        (place_trade env connected symbol volume order_type sl_distance tp_distance comment
            magic).2 = .error (.orderFailedMsg (error_message r.retcode)))) ∧
    (env.send 0 p.req = none → env.last_error1.1 ≠ 10013 →
      place_trade env connected symbol volume order_type sl_distance tp_distance comment
        magic = ([p.req], .error (.orderFailedCode env.last_error1.1 env.last_error1.2))) ∧
    (∀ r, env.send 0 p.req = some r → r.retcode ≠ 10009 →
      place_trade env connected symbol volume order_type sl_distance tp_distance comment
        magic = ([p.req], .error (.orderFailedMsg (error_message r.retcode)))) := by
  have hdev : p.req.deviation = 20 := by
    obtain ⟨-, -, -, -, tick, pr, -, -, -, hreq, -, -⟩ := place_prepare_ok_req hp
    rw [hreq]
  have hpt : place_trade env connected symbol volume order_type sl_distance tp_distance
      comment magic = place_submit env comment p := by
    unfold place_trade; rw [hp]
  refine ⟨hdev, ?_, ?_, ?_⟩
  · intro h0 h13
    refine ⟨?_, ?_, ?_⟩
    · rw [hpt]
      simp only [place_submit, h0]
      rw [if_pos h13]
      rcases h2 : env.send 1 { p.req with deviation := 50 } with _ | r1 <;> simp [h2]
    · intro h2
      rw [hpt]
      simp only [place_submit, h0]
      rw [if_pos h13]
      simp [h2]
    · intro r h2 hne
      rw [hpt]
      simp only [place_submit, h0]
      rw [if_pos h13]
      simp only [h2]
      unfold place_finish
      rw [if_neg hne]
  · intro h0 hne
    rw [hpt]
    simp only [place_submit, h0]
    rw [if_neg hne]
  · intro r h0 hne
    rw [hpt]
    simp only [place_submit, h0]
    unfold place_finish
    rw [if_neg hne]

/-- Witness for C4: on a venue that always returns no result with requote
error 10013, exactly two submissions happen (tolerances 20 then 50) and the
call fails with the order-failed error carrying code 10013. -/
theorem C4_requote_retry_witness :
    (place_trade placeEnvRequote true "X" 1 "BUY" none none "" 0).1 =
      [prepPlain.req, { prepPlain.req with deviation := 50 }] ∧
    (place_trade placeEnvRequote true "X" 1 "BUY" none none "" 0).2 =
      .error (.orderFailedCode 10013 "Requote") := by
  have h := C4_requote_retry placeEnvRequote true "X" 1 "BUY" none none "" 0 prepPlain
    (by with_unfolding_all rfl)
  obtain ⟨-, h2, -, -⟩ := h
  obtain ⟨ht, hnone, -⟩ := h2 rfl rfl
  exact ⟨ht, hnone rfl⟩

/-- C2 (amended): in `place_trade`, a positive SL/TP distance strictly below
the minimum stop distance `stops_level * point` is widened to exactly that
minimum, with the SL/TP price recomputed from the reference price (BUY:
SL = price − distance, TP = price + distance; SELL mirrored) — provided the
preliminary SL/TP price computed from the raw distance is non-zero; when
that preliminary price rounds to zero, no SL/TP is attached to the request
at all (lines 324/329 test `sl != 0` / `tp != 0`).  In either case the raw
smaller distance is never submitted. -/
theorem C2_stop_distance_floor_amended (env : PlaceEnv) (symbol : String) (volume : ℚ)
    (order_type : String) (sl_distance tp_distance : Option ℚ) (comment : String)
    (magic : ℤ) (info : SymbolInfo) (tick : Tick) (pr : ℕ × ℚ)
    (hsel : env.selectOk = true) (hinfo : env.info = some info)
    (htm : info.trade_mode ≠ 0) (htick : env.tick = some tick)
    (hbr : place_branch order_type.toUpper tick = some pr) :
    (∀ d, sl_distance = some d → 0 < d → d < info.stops_level * info.point →
      sl_price order_type.toUpper pr.2 d info.digits ≠ 0 →
      ∀ r ∈ (place_trade env true symbol volume order_type sl_distance tp_distance
          comment magic).1,
        r.sl = some (sl_price order_type.toUpper pr.2 (info.stops_level * info.point)
          info.digits)) ∧
    (∀ d, sl_distance = some d → 0 < d →
      sl_price order_type.toUpper pr.2 d info.digits = 0 →
      ∀ r ∈ (place_trade env true symbol volume order_type sl_distance tp_distance
          comment magic).1, r.sl = none) ∧
    (∀ d, tp_distance = some d → 0 < d → d < info.stops_level * info.point →
      tp_price order_type.toUpper pr.2 d info.digits ≠ 0 →
      ∀ r ∈ (place_trade env true symbol volume order_type sl_distance tp_distance
          comment magic).1,
        r.tp = some (tp_price order_type.toUpper pr.2 (info.stops_level * info.point)
          info.digits)) ∧
    (∀ d, tp_distance = some d → 0 < d →
      tp_price order_type.toUpper pr.2 d info.digits = 0 →
      ∀ r ∈ (place_trade env true symbol volume order_type sl_distance tp_distance
          comment magic).1, r.tp = none) := by
  have main : ∀ (p : PlacePrep),
      place_prepare env true symbol volume order_type sl_distance tp_distance comment
        magic = .ok p →
      p.info = info ∧
      p.req.sl = (place_adjust_sl order_type.toUpper sl_distance
        (sl_pre order_type.toUpper sl_distance pr.2 info.digits)
        (info.stops_level * info.point) pr.2 info.digits).1 ∧
      p.req.tp = (place_adjust_tp order_type.toUpper tp_distance
        (tp_pre order_type.toUpper tp_distance pr.2 info.digits)
        (info.stops_level * info.point) pr.2 info.digits).1 := by
    intro p hpp
    obtain ⟨-, -, hI, -, tick2, pr2, hT2, hbr2, -, hreq, -, -⟩ := place_prepare_ok_req hpp
    have hinfo2 : p.info = info := by rw [hinfo] at hI; exact (Option.some.inj hI).symm
    have htick2 : tick2 = tick := by rw [htick] at hT2; exact (Option.some.inj hT2).symm
    have hpr2 : pr2 = pr := by
      rw [htick2, hbr] at hbr2; exact (Option.some.inj hbr2).symm
    refine ⟨hinfo2, ?_, ?_⟩
    · rw [hreq, hinfo2, hpr2]
    · rw [hreq, hinfo2, hpr2]
  refine ⟨?_, ?_, ?_, ?_⟩
  · intro d hd h0 hlt hne r hr
    unfold place_trade at hr
    rcases hpp : place_prepare env true symbol volume order_type sl_distance tp_distance
      comment magic with e | p
    · rw [hpp] at hr; simp at hr
    rw [hpp] at hr
    obtain ⟨-, hsl, -⟩ := main p hpp
    have hval : p.req.sl = some (sl_price order_type.toUpper pr.2
        (info.stops_level * info.point) info.digits) := by
      rw [hsl]
      simp [place_adjust_sl, sl_pre, hd, h0, hlt, hne]
    rcases place_submit_mem env comment p r hr with h | h
    · rw [h]; exact hval
    · rw [h]; exact hval
  · intro d hd h0 hz r hr
    unfold place_trade at hr
    rcases hpp : place_prepare env true symbol volume order_type sl_distance tp_distance
      comment magic with e | p
    · rw [hpp] at hr; simp at hr
    rw [hpp] at hr
    obtain ⟨-, hsl, -⟩ := main p hpp
    have hval : p.req.sl = none := by
      rw [hsl]
      simp [place_adjust_sl, sl_pre, hd, h0, hz]
    rcases place_submit_mem env comment p r hr with h | h
    · rw [h]; exact hval
    · rw [h]; exact hval
  · intro d hd h0 hlt hne r hr
    unfold place_trade at hr
    rcases hpp : place_prepare env true symbol volume order_type sl_distance tp_distance
      comment magic with e | p
    · rw [hpp] at hr; simp at hr
    rw [hpp] at hr
    obtain ⟨-, -, htp⟩ := main p hpp
    have hval : p.req.tp = some (tp_price order_type.toUpper pr.2
        (info.stops_level * info.point) info.digits) := by
      rw [htp]
      simp [place_adjust_tp, tp_pre, hd, h0, hlt, hne]
    rcases place_submit_mem env comment p r hr with h | h
    · rw [h]; exact hval
    · rw [h]; exact hval
  · intro d hd h0 hz r hr
    unfold place_trade at hr
    rcases hpp : place_prepare env true symbol volume order_type sl_distance tp_distance
      comment magic with e | p
    · rw [hpp] at hr; simp at hr
    rw [hpp] at hr
    obtain ⟨-, -, htp⟩ := main p hpp
    have hval : p.req.tp = none := by
      rw [htp]
      simp [place_adjust_tp, tp_pre, hd, h0, hz]
    rcases place_submit_mem env comment p r hr with h | h
    · rw [h]; exact hval
    · rw [h]; exact hval

/-- Counterexample to C2 as stated: a BUY at ask 1.0 with SL distance 1.0 —
positive (non-zero) and strictly below the minimum stop distance 3.0 — is
submitted with no SL at all, because the preliminary SL price
round(1.0 − 1.0, 2) is zero and lines 324-328 then skip both the widening
and the `sl` key; in particular the submitted request does not carry the
widened SL price the claim requires. -/
theorem C2_stop_distance_floor_counterexample :
    (0:ℚ) < 1 ∧ (1:ℚ) < exInfo.stops_level * exInfo.point ∧
    (place_trade placeEnvOk true "X" 1 "BUY" (some 1) none "" 0).1.map TradeRequest.sl =
      [none] ∧
    ¬ (∀ r ∈ (place_trade placeEnvOk true "X" 1 "BUY" (some 1) none "" 0).1,
        r.sl = some (sl_price "BUY" 1 (exInfo.stops_level * exInfo.point)
          exInfo.digits)) := by
  refine ⟨by norm_num, ?_, by with_unfolding_all rfl, ?_⟩
  · rw [show exInfo.stops_level * exInfo.point = 3 from by with_unfolding_all rfl]
    norm_num
  · intro hall
    have h2 := hall prepPlain.req
      (by with_unfolding_all (exact List.mem_singleton.mpr rfl))
    simp [prepPlain] at h2

/-- Witness for the amended C2: SL distance 0.5 (below the 3.0 minimum,
preliminary price 0.50 non-zero) is submitted with the SL recomputed at the
full minimum distance. -/
theorem C2_stop_distance_floor_amended_witness :
    reqSL.sl = some (sl_price "BUY".toUpper 1 (exInfo.stops_level * exInfo.point)
      exInfo.digits) := by
  have h := (C2_stop_distance_floor_amended placeEnvOk "X" 1 "BUY" (some (1/2)) none "" 0
    exInfo exTick (0, 1) rfl rfl (by decide) rfl (by with_unfolding_all rfl)).1
  have h3 : (1/2 : ℚ) < exInfo.stops_level * exInfo.point := by
    rw [show exInfo.stops_level * exInfo.point = 3 from by with_unfolding_all rfl]
    norm_num
  have hne : sl_price "BUY".toUpper (0, (1:ℚ)).2 (1/2) exInfo.digits ≠ 0 := by
    rw [show sl_price "BUY".toUpper (0, (1:ℚ)).2 (1/2) exInfo.digits = 1/2 from by
      with_unfolding_all rfl]
    norm_num
  exact h (1/2) rfl (by norm_num) h3 hne reqSL
    (by with_unfolding_all (exact List.mem_singleton.mpr rfl))

/-- C6: `close_trade` first caps the requested volume at the position's
remaining volume, then clamps/quantizes it, and the two volume checks of
lines 400-403 fail with the corresponding volume error before any
submission; every request actually submitted carries the capped-then-
normalized volume. -/
theorem C6_close_volume_checks (env : CloseEnv) (ticket : ℕ) (volume : Option ℚ)
    (symbol : Option String) (mr : ℕ) (pos : PositionState) (info : SymbolInfo)
    (hpos : env.position = some pos) (hsel : env.selectOk = true)
    (hinfo : env.info = some info) (htm : info.trade_mode ≠ 0) :
    (normalize_volume info (cap_volume volume pos.volume) < info.volume_min →
      close_trade env true ticket volume symbol mr = ([], .error (.volumeBelowMin
        (normalize_volume info (cap_volume volume pos.volume)) info.volume_min))) ∧
    (¬ normalize_volume info (cap_volume volume pos.volume) < info.volume_min →
      info.volume_max < normalize_volume info (cap_volume volume pos.volume) →
      close_trade env true ticket volume symbol mr = ([], .error (.volumeAboveMax
        (normalize_volume info (cap_volume volume pos.volume)) info.volume_max))) ∧
    (∀ r ∈ (close_trade env true ticket volume symbol mr).1,
      r.volume = normalize_volume info (cap_volume volume pos.volume)) := by
  refine ⟨?_, ?_, ?_⟩
  · intro hmin
    have hp : close_prepare env true ticket volume symbol = .error (.volumeBelowMin
        (normalize_volume info (cap_volume volume pos.volume)) info.volume_min) := by
      simp [close_prepare, hpos, hsel, hinfo, htm, hmin]
    unfold close_trade
    rw [hp]
  · intro hmin hmax
    have hp : close_prepare env true ticket volume symbol = .error (.volumeAboveMax
        (normalize_volume info (cap_volume volume pos.volume)) info.volume_max) := by
      simp [close_prepare, hpos, hsel, hinfo, htm, hmin, hmax]
    unfold close_trade
    rw [hp]
  · intro r hr
    unfold close_trade at hr
    rcases hp : close_prepare env true ticket volume symbol with e | p
    · rw [hp] at hr; simp at hr
    rw [hp] at hr
    obtain ⟨-, hP, -, hI, -, -, hvol, -, -, -, -, -⟩ := close_prepare_ok_fields hp
    have hpi : p.info = info := by rw [hinfo] at hI; exact (Option.some.inj hI).symm
    have hpp : p.pos = pos := by rw [hpos] at hP; exact (Option.some.inj hP).symm
    have h1 := close_loop_mem_volume env ticket mr p.pos p.symbol p.volume p.caps mr 0
      p.filling r hr
    rw [h1, hvol, hpi, hpp]

/-- Witness for C6: with volume_min 2 above volume_max 1 the normalized
volume lands above the maximum and the close fails with the volume error,
submitting nothing. -/
theorem C6_close_volume_checks_witness :
    close_trade closeEnvVolume true 7 none none 3 =
      ([], .error (.volumeAboveMax 2 1)) := by
  have hnv : normalize_volume volInfo (cap_volume none exPos.volume) = 2 := by
    with_unfolding_all rfl
  have hmin : ¬ normalize_volume volInfo (cap_volume none exPos.volume) <
      volInfo.volume_min := by
    rw [hnv, show volInfo.volume_min = 2 from rfl]
    norm_num
  have hmax : volInfo.volume_max <
      normalize_volume volInfo (cap_volume none exPos.volume) := by
    rw [hnv, show volInfo.volume_max = 1 from rfl]
    norm_num
  have h := (C6_close_volume_checks closeEnvVolume 7 none none 3 exPos volInfo
    rfl rfl rfl (by decide)).2.1 hmin hmax
  rw [hnv, show volInfo.volume_max = 1 from rfl] at h
  exact h

/-- The close retry loop can produce the exhaustion error only by running
out of fuel, which never happens when it starts with at least one attempt:
the loop body recurses only while `attempt < max_retries - 1`. -/
theorem close_loop_no_exhaust (env : CloseEnv) (ticket mr : ℕ) (pos : PositionState)
    (sym : String) (vol : ℚ) (caps : List Filling) :
    ∀ fuel attempt filling, attempt + fuel = mr → fuel ≠ 0 →
      ∀ (e : CloseErr) (n : ℕ),
        (close_loop env ticket mr pos sym vol caps filling attempt fuel).2 = .error e →
        e ≠ .closeExhausted n := by
  intro fuel
  induction fuel with
  | zero => intro attempt filling hsum h0; exact absurd rfl h0
  | succ nf ih =>
    intro attempt filling hsum _ e n hres hcontra
    subst hcontra
    unfold close_loop at hres
    rcases hT : env.ticks attempt with _ | tick
    · simp [hT] at hres
    rcases hS : env.send attempt (close_request sym vol pos ticket attempt filling tick)
      with _ | res
    · simp [hT, hS] at hres
    by_cases hd : res.retcode = 10009
    · simp [hT, hS, hd] at hres
    by_cases hrt : res.retcode = 10021 ∧ attempt < mr - 1
    · simp only [hT, hS] at hres
      rw [if_neg hd, if_pos hrt] at hres
      have hnf : nf ≠ 0 := by omega
      exact ih (attempt + 1) (caps.getD 1 filling) (by omega) hnf _ n hres rfl
    · simp only [hT, hS] at hres
      rw [if_neg hd, if_neg hrt] at hres
      simp at hres

/-- C5 (amended): in `close_trade`, attempt `j` re-fetches the tick and
submits with price tolerance `20 + 10*j`; attempt 0 uses the selected
filling and every later attempt uses the second supported capability
`caps[1]` when at least two exist (the fallback never advances past the
second, staying there for all remaining attempts); a result whose retcode is
neither the success code nor an invalid-request code eligible for retry
(10021 with attempts remaining) fails immediately with the
catalog-translated close-failed error — including a 10021 on the final
attempt; and the exhaustion error naming `maxAttempts` occurs exactly when
`maxAttempts = 0`, never on a run with at least one attempt. -/
theorem C5_close_retry_amended (env : CloseEnv) (connected : Bool) (ticket : ℕ)
    (volume : Option ℚ) (symbol : Option String) (p : ClosePrep)
    (hp : close_prepare env connected ticket volume symbol = .ok p) :
    (∀ (mr j : ℕ) (r : TradeRequest),
      (close_trade env connected ticket volume symbol mr).1.get? j = some r →
      r.deviation = 20 + 10 * j ∧
      ∃ tick, env.ticks j = some tick ∧
        r = close_request p.symbol p.volume p.pos ticket j
          (if j = 0 then p.filling else p.caps.getD 1 p.filling) tick) ∧
    (∀ (mr : ℕ) (tick : Tick) (res : SendResult), mr ≠ 0 →
      env.ticks 0 = some tick →
      env.send 0 (close_request p.symbol p.volume p.pos ticket 0 p.filling tick) =
        some res →
      res.retcode ≠ 10009 → ¬ (res.retcode = 10021 ∧ 0 < mr - 1) →
      close_trade env connected ticket volume symbol mr =
        ([close_request p.symbol p.volume p.pos ticket 0 p.filling tick],
         .error (.closeFailedMsg (error_message res.retcode)))) ∧
    close_trade env connected ticket volume symbol 0 =
      ([], .error (.closeExhausted 0)) ∧
    (∀ (mr : ℕ) (e : CloseErr), 1 ≤ mr →
      (close_trade env connected ticket volume symbol mr).2 = .error e →
      ∀ n, e ≠ .closeExhausted n) := by
  have hct : ∀ mr, close_trade env connected ticket volume symbol mr =
      close_loop env ticket mr p.pos p.symbol p.volume p.caps p.filling 0 mr := by
    intro mr; unfold close_trade; rw [hp]
  refine ⟨?_, ?_, ?_, ?_⟩
  · intro mr j r hr
    rw [hct mr] at hr
    obtain ⟨tick, htk, hreq⟩ := close_loop_get env ticket mr p.pos p.symbol p.volume
      p.caps mr 0 p.filling j r hr
    refine ⟨?_, tick, ?_, ?_⟩
    · rw [hreq]; simp [close_request, Nat.mul_comm]
    · simpa using htk
    · simpa using hreq
  · intro mr tick res hmr htk hsend hne hstop
    rcases mr with _ | n
    · exact absurd rfl hmr
    rw [hct (n + 1)]
    unfold close_loop
    simp only [htk, hsend]
    rw [if_neg hne, if_neg hstop]
  · rw [hct 0]; rfl
  · intro mr e h1 hres n
    rw [hct mr] at hres
    exact close_loop_no_exhaust env ticket mr p.pos p.symbol p.volume p.caps mr 0
      p.filling (by omega) (by omega) e n hres

/-- Counterexample to C5 as stated: with all three filling capabilities
supported (bitmask 7) and three consecutive invalid-request (10021)
rejections at maxAttempts = 3, the third attempt submits with IOC — the
second supported capability again, not the next one (RETURN) — and the
overall result is the catalog-translated invalid-request error, not the
exhaustion error naming maxAttempts. -/
theorem C5_close_retry_counterexample :
    (close_trade closeEnvInvalid true 7 none none 3).1.map TradeRequest.type_filling =
      [Filling.FOK, Filling.IOC, Filling.IOC] ∧
    (close_trade closeEnvInvalid true 7 none none 3).2 =
      .error (.closeFailedMsg
        "Invalid request (check volume, symbol, or market status)") ∧
    (close_trade closeEnvInvalid true 7 none none 3).2 ≠
      .error (.closeExhausted 3) := by
  refine ⟨by with_unfolding_all rfl, by with_unfolding_all rfl, ?_⟩
  intro h
  rw [show (close_trade closeEnvInvalid true 7 none none 3).2 =
    .error (.closeFailedMsg "Invalid request (check volume, symbol, or market status)")
    from by with_unfolding_all rfl] at h
  simp at h

/-- Witness for the amended C5: at maxAttempts 1 a single 10021 rejection is
a final attempt and fails immediately with the catalog invalid-request
message after one submission. -/
theorem C5_close_retry_amended_witness :
    close_trade closeEnvInvalid true 7 none none 1 =
      ([close_request "XAUUSD" 1 exPos 7 0 Filling.FOK { bid := 2, ask := 3, time := 0 }],
       .error (.closeFailedMsg
         "Invalid request (check volume, symbol, or market status)")) := by
  have h := (C5_close_retry_amended closeEnvInvalid true 7 none none
      ⟨exPos, "XAUUSD", fillInfo, 1, [Filling.FOK, Filling.IOC, Filling.RETURN],
        Filling.FOK⟩ (by with_unfolding_all rfl)).2.1 1
      { bid := 2, ask := 3, time := 0 }
      { retcode := 10021, order := 1, deal := 1, volume := 1, price := 2 }
      (by norm_num) rfl rfl (by decide) (by simp)
  exact h

/-- Witness for C7: on the fresh connector state, subscribing clients 1 and 2
to one symbol yields the subscriber set [1, 2] under one worker, and
unsubscribing both removes the worker entry. -/
theorem C7_subscriber_reference_counting_witness :
    dlookup (StreamState.active_subscriptions (start_price_stream (start_price_stream
      emptyStream "XAUUSD" 1) "XAUUSD" 2)) "XAUUSD" = some [1, 2] ∧
    dlookup (StreamState.price_threads (stop_price_stream (stop_price_stream
      (start_price_stream (start_price_stream emptyStream "XAUUSD" 1) "XAUUSD" 2)
      "XAUUSD" (some 1)) "XAUUSD" (some 2))) "XAUUSD" = none := by
  have h := C7_subscriber_reference_counting.2.2.2 emptyStream "XAUUSD" 1 2
    (by norm_num) rfl rfl
  exact ⟨h.2.2.2.2.2.1, h.2.2.2.2.2.2.2.2.1⟩
